import Mathlib

/-
  Verification of the `Viewport` class (deck.gl fork, `src/core/viewports/viewport.js`-style
  source) against its natural-language specification.

  Modelling conventions:
  * JavaScript numbers are modelled exactly: finite values are rationals (`ℚ`), and every
    non-finite value (NaN, ±Infinity, `null`/`undefined` flowing through arithmetic) is
    collapsed into a single `JSNum.nan` constructor.  "Approximately equal within floating
    tolerance" in the spec is read as exact equality of the exact-arithmetic model.
  * The gl-mat4 / gl-vec2 matrix library functions used by the source are embedded directly
    from their well-known definitions (column-major 4x4 matrices, `multiply out a b = a·b`,
    vectors multiplied from the right).
  * Functions of this repository that are referenced by the source file but whose code is not
    included under the sources (`transformVector` from the math utils, the
    viewport-mercator-project helpers) are modelled from the spec; each such definition is
    marked `Modelled from the spec:` in its doc comment.
  * Transcendental float functions (`Math.pow`, `Math.tan`, `Math.PI`) return floats, i.e.
    rationals; they are modelled as unconstrained rational-valued parameters collected in
    `ExternalEnv`, and theorems hold for every choice of these parameters.
-/

/-- A JavaScript number: either a finite rational or a single collapsed
non-finite value (NaN / ±Infinity / undefined-in-arithmetic). -/
inductive JSNum where
  | nan : JSNum
  | fin : ℚ → JSNum
deriving DecidableEq, Repr

/-- `Number.isFinite`. -/
def JSNum.isFinite : JSNum → Bool
  | .nan => false
  | .fin _ => true

def JSNum.add : JSNum → JSNum → JSNum
  | .fin a, .fin b => .fin (a + b)
  | _, _ => .nan

def JSNum.sub : JSNum → JSNum → JSNum
  | .fin a, .fin b => .fin (a - b)
  | _, _ => .nan

def JSNum.mul : JSNum → JSNum → JSNum
  | .fin a, .fin b => .fin (a * b)
  | _, _ => .nan

/-- JS division; division by zero produces a non-finite value. -/
def JSNum.div : JSNum → JSNum → JSNum
  | .fin a, .fin b => if b = 0 then .nan else .fin (a / b)
  | _, _ => .nan

instance : Add JSNum := ⟨JSNum.add⟩
instance : Sub JSNum := ⟨JSNum.sub⟩
instance : Mul JSNum := ⟨JSNum.mul⟩
instance : Div JSNum := ⟨JSNum.div⟩

/-- A 3-component rational vector. -/
@[ext] structure Vec3 where
  x : ℚ
  y : ℚ
  z : ℚ
deriving DecidableEq, Repr

/-- A 4-component rational (homogeneous) vector. -/
@[ext] structure Vec4 where
  x : ℚ
  y : ℚ
  z : ℚ
  w : ℚ
deriving DecidableEq, Repr

/-- A 4-component vector of JS numbers (possibly non-finite components). -/
@[ext] structure Vec4J where
  x : JSNum
  y : JSNum
  z : JSNum
  w : JSNum
deriving DecidableEq, Repr

/-- A column-major 4x4 rational matrix. Field `mI` is array slot `m[I]` of the
gl-mat4 representation: `m0..m3` is the first column, etc. -/
@[ext] structure Mat4 where
  m0 : ℚ
  m1 : ℚ
  m2 : ℚ
  m3 : ℚ
  m4 : ℚ
  m5 : ℚ
  m6 : ℚ
  m7 : ℚ
  m8 : ℚ
  m9 : ℚ
  m10 : ℚ
  m11 : ℚ
  m12 : ℚ
  m13 : ℚ
  m14 : ℚ
  m15 : ℚ
deriving DecidableEq, Repr

/-- `createMat4()` from the math utils: a fresh identity matrix. -/
def createMat4 : Mat4 :=
  ⟨1, 0, 0, 0,
   0, 1, 0, 0,
   0, 0, 1, 0,
   0, 0, 0, 1⟩

/-- gl-mat4 `multiply(out, a, b)`: the matrix product `a · b`
(column-major; vectors are multiplied in from the right). -/
def mat4_multiply (a b : Mat4) : Mat4 :=
  ⟨b.m0 * a.m0 + b.m1 * a.m4 + b.m2 * a.m8 + b.m3 * a.m12,
   b.m0 * a.m1 + b.m1 * a.m5 + b.m2 * a.m9 + b.m3 * a.m13,
   b.m0 * a.m2 + b.m1 * a.m6 + b.m2 * a.m10 + b.m3 * a.m14,
   b.m0 * a.m3 + b.m1 * a.m7 + b.m2 * a.m11 + b.m3 * a.m15,
   b.m4 * a.m0 + b.m5 * a.m4 + b.m6 * a.m8 + b.m7 * a.m12,
   b.m4 * a.m1 + b.m5 * a.m5 + b.m6 * a.m9 + b.m7 * a.m13,
   b.m4 * a.m2 + b.m5 * a.m6 + b.m6 * a.m10 + b.m7 * a.m14,
   b.m4 * a.m3 + b.m5 * a.m7 + b.m6 * a.m11 + b.m7 * a.m15,
   b.m8 * a.m0 + b.m9 * a.m4 + b.m10 * a.m8 + b.m11 * a.m12,
   b.m8 * a.m1 + b.m9 * a.m5 + b.m10 * a.m9 + b.m11 * a.m13,
   b.m8 * a.m2 + b.m9 * a.m6 + b.m10 * a.m10 + b.m11 * a.m14,
   b.m8 * a.m3 + b.m9 * a.m7 + b.m10 * a.m11 + b.m11 * a.m15,
   b.m12 * a.m0 + b.m13 * a.m4 + b.m14 * a.m8 + b.m15 * a.m12,
   b.m12 * a.m1 + b.m13 * a.m5 + b.m14 * a.m9 + b.m15 * a.m13,
   b.m12 * a.m2 + b.m13 * a.m6 + b.m14 * a.m10 + b.m15 * a.m14,
   b.m12 * a.m3 + b.m13 * a.m7 + b.m14 * a.m11 + b.m15 * a.m15⟩

/-- gl-mat4 `scale(out, a, v)`: `a · diag(v.x, v.y, v.z, 1)`. -/
def mat4_scale (a : Mat4) (v : Vec3) : Mat4 :=
  ⟨a.m0 * v.x, a.m1 * v.x, a.m2 * v.x, a.m3 * v.x,
   a.m4 * v.y, a.m5 * v.y, a.m6 * v.y, a.m7 * v.y,
   a.m8 * v.z, a.m9 * v.z, a.m10 * v.z, a.m11 * v.z,
   a.m12, a.m13, a.m14, a.m15⟩

/-- gl-mat4 `translate(out, a, v)`: `a · T(v)` where `T` is the translation matrix. -/
def mat4_translate (a : Mat4) (v : Vec3) : Mat4 :=
  ⟨a.m0, a.m1, a.m2, a.m3,
   a.m4, a.m5, a.m6, a.m7,
   a.m8, a.m9, a.m10, a.m11,
   a.m0 * v.x + a.m4 * v.y + a.m8 * v.z + a.m12,
   a.m1 * v.x + a.m5 * v.y + a.m9 * v.z + a.m13,
   a.m2 * v.x + a.m6 * v.y + a.m10 * v.z + a.m14,
   a.m3 * v.x + a.m7 * v.y + a.m11 * v.z + a.m15⟩

/-- gl-mat4 `perspective(out, fovy, aspect, near, far)`.  `Math.tan` is a float
function and is passed in as the rational-valued parameter `tanF`. -/
def mat4_perspective (tanF : ℚ → ℚ) (fovy aspect near far : ℚ) : Mat4 :=
  let f := 1 / tanF (fovy / 2)
  let nf := 1 / (near - far)
  ⟨f / aspect, 0, 0, 0,
   0, f, 0, 0,
   0, 0, (far + near) * nf, -1,
   0, 0, (2 * far * near) * nf, 0⟩

/-- The determinant computed by gl-mat4 `invert`. -/
def mat4_det (a : Mat4) : ℚ :=
  (a.m0 * a.m5 - a.m1 * a.m4) * (a.m10 * a.m15 - a.m11 * a.m14) -
  (a.m0 * a.m6 - a.m2 * a.m4) * (a.m9 * a.m15 - a.m11 * a.m13) +
  (a.m0 * a.m7 - a.m3 * a.m4) * (a.m9 * a.m14 - a.m10 * a.m13) +
  (a.m1 * a.m6 - a.m2 * a.m5) * (a.m8 * a.m15 - a.m11 * a.m12) -
  (a.m1 * a.m7 - a.m3 * a.m5) * (a.m8 * a.m14 - a.m10 * a.m12) +
  (a.m2 * a.m7 - a.m3 * a.m6) * (a.m8 * a.m13 - a.m9 * a.m12)

/-- gl-mat4 `invert(out, a)`: returns `none` (JS `null`) when the determinant is zero,
otherwise the adjugate divided by the determinant (the exact gl-mat4 cofactor formula). -/
def mat4_invert (a : Mat4) : Option Mat4 :=
  let b00 := a.m0 * a.m5 - a.m1 * a.m4
  let b01 := a.m0 * a.m6 - a.m2 * a.m4
  let b02 := a.m0 * a.m7 - a.m3 * a.m4
  let b03 := a.m1 * a.m6 - a.m2 * a.m5
  let b04 := a.m1 * a.m7 - a.m3 * a.m5
  let b05 := a.m2 * a.m7 - a.m3 * a.m6
  let b06 := a.m8 * a.m13 - a.m9 * a.m12
  let b07 := a.m8 * a.m14 - a.m10 * a.m12
  let b08 := a.m8 * a.m15 - a.m11 * a.m12
  let b09 := a.m9 * a.m14 - a.m10 * a.m13
  let b10 := a.m9 * a.m15 - a.m11 * a.m13
  let b11 := a.m10 * a.m15 - a.m11 * a.m14
  let det := b00 * b11 - b01 * b10 + b02 * b09 + b03 * b08 - b04 * b07 + b05 * b06
  if det = 0 then none
  else some
    ⟨(a.m5 * b11 - a.m6 * b10 + a.m7 * b09) / det,
     (a.m2 * b10 - a.m1 * b11 - a.m3 * b09) / det,
     (a.m13 * b05 - a.m14 * b04 + a.m15 * b03) / det,
     (a.m10 * b04 - a.m9 * b05 - a.m11 * b03) / det,
     (a.m6 * b08 - a.m4 * b11 - a.m7 * b07) / det,
     (a.m0 * b11 - a.m2 * b08 + a.m3 * b07) / det,
     (a.m14 * b02 - a.m12 * b05 - a.m15 * b01) / det,
     (a.m8 * b05 - a.m10 * b02 + a.m11 * b01) / det,
     (a.m4 * b10 - a.m5 * b08 + a.m7 * b06) / det,
     (a.m1 * b08 - a.m0 * b10 - a.m3 * b06) / det,
     (a.m12 * b04 - a.m13 * b02 + a.m15 * b00) / det,
     (a.m9 * b02 - a.m8 * b04 - a.m11 * b00) / det,
     (a.m5 * b07 - a.m4 * b09 - a.m6 * b06) / det,
     (a.m0 * b09 - a.m1 * b07 + a.m2 * b06) / det,
     (a.m13 * b01 - a.m12 * b03 - a.m14 * b00) / det,
     (a.m8 * b03 - a.m9 * b01 + a.m10 * b00) / det⟩

/-- gl-vec4 `transformMat4`: `out[i] = m[i]*x + m[i+4]*y + m[i+8]*z + m[i+12]*w`
over exact rationals. -/
def mat4vec (m : Mat4) (v : Vec4) : Vec4 :=
  ⟨m.m0 * v.x + m.m4 * v.y + m.m8 * v.z + m.m12 * v.w,
   m.m1 * v.x + m.m5 * v.y + m.m9 * v.z + m.m13 * v.w,
   m.m2 * v.x + m.m6 * v.y + m.m10 * v.z + m.m14 * v.w,
   m.m3 * v.x + m.m7 * v.y + m.m11 * v.z + m.m15 * v.w⟩

/-- gl-vec4 `transformMat4` over JS numbers (non-finite components propagate). -/
def mat4vecJ (m : Mat4) (v : Vec4J) : Vec4J :=
  ⟨.fin m.m0 * v.x + .fin m.m4 * v.y + .fin m.m8 * v.z + .fin m.m12 * v.w,
   .fin m.m1 * v.x + .fin m.m5 * v.y + .fin m.m9 * v.z + .fin m.m13 * v.w,
   .fin m.m2 * v.x + .fin m.m6 * v.y + .fin m.m10 * v.z + .fin m.m14 * v.w,
   .fin m.m3 * v.x + .fin m.m7 * v.y + .fin m.m11 * v.z + .fin m.m15 * v.w⟩

/-- Modelled from the spec: `transformVector` from the repository's math utils (the file
itself is not among the sources).  Transforms a homogeneous 4-vector through a matrix and
normalizes by the `w` component; per the spec it fails — returns JS `null` — when the matrix
is absent or when the transform "produced a non-finite or non-normalizable result". -/
def transformVector (m : Option Mat4) (v : Vec4J) : Option Vec4 :=
  match m with
  | none => none
  | some mm =>
    match mat4vecJ mm v with
    | ⟨.fin a, .fin b, .fin c, .fin d⟩ =>
      if d = 0 then none else some ⟨a / d, b / d, c / d, 1⟩
    | _ => none

/-- gl-vec2 `lerp(out, a, b, t)` over JS numbers: `out = a + t*(b - a)` componentwise. -/
def vec2_lerp (a b : JSNum × JSNum) (t : JSNum) : JSNum × JSNum :=
  (a.1 + t * (b.1 - a.1), a.2 + t * (b.2 - a.2))

/-- The record of four per-axis distance-scale conversion vectors. -/
structure DistanceScales where
  pixelsPerMeter : Vec3
  metersPerPixel : Vec3
  pixelsPerDegree : Vec3
  degreesPerPixel : Vec3
deriving DecidableEq, Repr

/-- `DEFAULT_DISTANCE_SCALES`: unit vectors. -/
def DEFAULT_DISTANCE_SCALES : DistanceScales :=
  ⟨⟨1, 1, 1⟩, ⟨1, 1, 1⟩, ⟨1, 1, 1⟩, ⟨1, 1, 1⟩⟩

/-- `DEFAULT_ZOOM = 0`. -/
def DEFAULT_ZOOM : ℚ := 0

/-- `ZERO_VECTOR = [0, 0, 0]`. -/
def ZERO_VECTOR : Vec3 := ⟨0, 0, 0⟩

/-- Modelled from the spec: the external functions the constructor calls whose code is not
among the sources, plus the transcendental float functions of the JS runtime.  The
viewport-mercator-project helpers (`getMercatorMeterZoom`: a mercator-consistent default
zoom derived from latitude alone; `getMercatorDistanceScales`: the four distance-scale
vectors from latitude, longitude and scale; `getMercatorWorldPosition`: the world-space
center from the anchor and meter offset) and math.gl's `Matrix4.transformVector` used on the
model matrix are kept abstract, as is `Math.pow 2 ·` (`pow2`), `Math.PI` (`pi`) and
`Math.tan` (`tan`), which return floats, i.e. rationals.  All theorems hold for every
choice of these parameters. -/
structure ExternalEnv where
  pow2 : ℚ → ℚ
  pi : ℚ
  tan : ℚ → ℚ
  getMercatorMeterZoom : ℚ → ℚ
  getMercatorDistanceScales : ℚ → ℚ → ℚ → DistanceScales
  getMercatorWorldPosition : ℚ → ℚ → ℚ → Vec3 → Vec3
  matrix4TransformVector : Mat4 → Vec3 → Vec3

/-- The constructor's option bag, with the source's destructuring defaults.  Options whose
absence or non-finiteness the source tests (`width`, `height`, `longitude`, `latitude`,
`zoom`, `fovy`) are JS numbers; `JSNum.nan` also stands for the `null` defaults, which fail
`Number.isFinite` exactly like NaN.  `focalDistance = 0` stands for an absent
`opts.focalDistance` (the source applies `|| 1` to it). -/
structure ViewportOpts where
  x : ℚ := 0
  y : ℚ := 0
  width : JSNum := .fin 1
  height : JSNum := .fin 1
  viewMatrix : Mat4 := createMat4
  projectionMatrix : Option Mat4 := none
  fovy : JSNum := .fin 75
  near : ℚ := 1 / 10
  far : ℚ := 1000
  longitude : JSNum := .nan
  latitude : JSNum := .nan
  zoom : JSNum := .nan
  position : Option Vec3 := none
  modelMatrix : Option Mat4 := none
  distanceScales : Option DistanceScales := none
  focalDistance : ℚ := 0

/-- The constructed `Viewport` instance: the fields the source assigns in the constructor
and `_initMatrices` (camera vectors, which no claim touches, are omitted). -/
structure Viewport where
  x : ℚ
  y : ℚ
  width : ℚ
  height : ℚ
  isGeospatial : Bool
  zoom : ℚ
  scale : ℚ
  distanceScales : DistanceScales
  focalDistance : ℚ
  position : Vec3
  meterOffset : Vec3
  modelMatrix : Option Mat4
  viewMatrixUncentered : Mat4
  center : Option Vec3
  viewMatrix : Mat4
  projectionMatrix : Mat4
  viewProjectionMatrix : Mat4
  viewMatrixInverse : Mat4
  pixelProjectionMatrix : Mat4
  pixelUnprojectionMatrix : Option Mat4
deriving DecidableEq, Repr

/-- The JS idiom `v || 1` applied to a width/height option: `0` is falsy and becomes `1`,
every other finite value is kept unchanged.  JS replaces only falsy inputs here — `0`,
`NaN`, and the `null`/`undefined` destructuring results — while a truthy non-finite width
(`±Infinity`) would be kept; since `JSNum.nan` collapses all non-finite values, its branch
reads the collapsed value as the falsy members, and no theorem in this file relies on the
resolved width or height of a non-finite input. -/
def jsFalsyOr1 : JSNum → ℚ
  | .nan => 1
  | .fin q => if q = 0 then 1 else q

/-- `this.zoom` after the constructor's resolution: the input zoom when it is a finite
number, otherwise the mercator meter zoom of the latitude in geospatial mode, otherwise
`DEFAULT_ZOOM`. -/
def resolvedZoom (env : ExternalEnv) (opts : ViewportOpts) : ℚ :=
  match opts.zoom with
  | .fin z => z
  | .nan =>
    if opts.latitude.isFinite && opts.longitude.isFinite then
      env.getMercatorMeterZoom (match opts.latitude with | .fin l => l | .nan => 0)
    else DEFAULT_ZOOM

/-- The projection matrix resolution: the supplied matrix if any; otherwise the
perspective matrix built from fovy/aspect/near/far — but `assert(Number.isFinite(fovy))`
throws (`none`) when `fovy` is not finite. -/
def resolveProjectionMatrix (env : ExternalEnv) (opts : ViewportOpts) : Option Mat4 :=
  match opts.projectionMatrix with
  | some pm => some pm
  | none =>
    match opts.fovy with
    | .nan => none
    | .fin fovy =>
      let fovyRadians := fovy * (env.pi / 180)
      let aspect := jsFalsyOr1 opts.width / jsFalsyOr1 opts.height
      some (mat4_perspective env.tan fovyRadians aspect opts.near opts.far)

/-- The constructor body after the projection matrix has been resolved (no further throw
can occur): resolves the geospatial flag, zoom, scale, distance scales, anchor offset,
center and view matrix, then runs `_initMatrices`. -/
def buildViewport (env : ExternalEnv) (opts : ViewportOpts) (projectionMatrix : Mat4) :
    Viewport :=
  let isGeospatial := opts.latitude.isFinite && opts.longitude.isFinite
  let latQ : ℚ := match opts.latitude with | .fin l => l | .nan => 0
  let lngQ : ℚ := match opts.longitude with | .fin l => l | .nan => 0
  let width := jsFalsyOr1 opts.width
  let height := jsFalsyOr1 opts.height
  let zoom := resolvedZoom env opts
  let scale := env.pow2 zoom
  let distanceScales :=
    if isGeospatial then env.getMercatorDistanceScales latQ lngQ scale
    else opts.distanceScales.getD DEFAULT_DISTANCE_SCALES
  let focalDistance := if opts.focalDistance = 0 then 1 else opts.focalDistance
  let meterOffset :=
    match opts.position with
    | none => ZERO_VECTOR
    | some p =>
      match opts.modelMatrix with
      | some mm => env.matrix4TransformVector mm p
      | none => p
  let center : Option Vec3 :=
    if isGeospatial then some (env.getMercatorWorldPosition lngQ latQ zoom meterOffset)
    else opts.position
  let viewMatrix :=
    if isGeospatial then
      let c := (center.getD ZERO_VECTOR)
      mat4_translate (mat4_scale (mat4_multiply createMat4 opts.viewMatrix) ⟨1, -1, 1⟩)
        ⟨-c.x, -c.y, -c.z⟩
    else opts.viewMatrix
  -- _initMatrices
  let vpm := mat4_multiply (mat4_multiply createMat4 projectionMatrix) viewMatrix
  let viewMatrixInverse := (mat4_invert viewMatrix).getD viewMatrix
  let m := mat4_multiply
    (mat4_translate (mat4_scale createMat4 ⟨width / 2, -(height / 2), 1⟩) ⟨1, -1, 0⟩) vpm
  { x := opts.x
    y := opts.y
    width := width
    height := height
    isGeospatial := isGeospatial
    zoom := zoom
    scale := scale
    distanceScales := distanceScales
    focalDistance := focalDistance
    position := (opts.position.getD ZERO_VECTOR)
    meterOffset := meterOffset
    modelMatrix := opts.modelMatrix
    viewMatrixUncentered := opts.viewMatrix
    center := center
    viewMatrix := viewMatrix
    projectionMatrix := projectionMatrix
    viewProjectionMatrix := vpm
    viewMatrixInverse := viewMatrixInverse
    pixelProjectionMatrix := m
    pixelUnprojectionMatrix := mat4_invert m }

/-- The `Viewport` constructor.  `none` models a thrown exception (the only throwing
statement is `assert(Number.isFinite(fovy))`, reached only when no projection matrix is
supplied). -/
def mkViewport (env : ExternalEnv) (opts : ViewportOpts) : Option Viewport :=
  (resolveProjectionMatrix env opts).map (buildViewport env opts)

/-- `_projectFlat`: the base-class non-linear projection hook, the identity on its input
(the scale argument is ignored), for any input type. -/
def Viewport._projectFlat {α : Type} (_v : Viewport) (xyz : α) (_scale : ℚ) : α := xyz

/-- `_unprojectFlat`: identity, like `_projectFlat`. -/
def Viewport._unprojectFlat {α : Type} (_v : Viewport) (xyz : α) (_scale : ℚ) : α := xyz

/-- `projectFlat([x, y], scale = this.scale)`: forwards to `_projectFlat`. -/
def Viewport.projectFlat {α : Type} (v : Viewport) (xyz : α) (scale : ℚ) : α :=
  v._projectFlat xyz scale

/-- `unprojectFlat(xyz, scale = this.scale)`: forwards to `_unprojectFlat`. -/
def Viewport.unprojectFlat {α : Type} (v : Viewport) (xyz : α) (scale : ℚ) : α :=
  v._unprojectFlat xyz scale

/-- The result of a JS method call that can throw or return `null`:
`thrown` models an exception propagating out of the call. -/
inductive JSResult where
  | thrown : JSResult
  | null : JSResult
  | arr : List JSNum → JSResult
deriving DecidableEq, Repr

/-- `Viewport.project(xyz, {topLeft})`.  Destructures `[x0, y0, z0 = 0]`, throws on a
non-finite component (the `assert`), flat-projects `(x0, y0)`, transforms
`[X, Y, z0, 1]` through `pixelProjectionMatrix` (destructuring a `null` transform result
throws), flips y for `topLeft`, and returns 2 or 3 components matching the input length. -/
def Viewport.project (v : Viewport) (xyz : List JSNum) (topLeft : Bool) : JSResult :=
  match xyz.getD 0 .nan, xyz.getD 1 .nan, xyz.getD 2 (.fin 0) with
  | .fin x0, .fin y0, .fin z0 =>
    let XY := v.projectFlat (x0, y0) v.scale
    match transformVector (some v.pixelProjectionMatrix)
        ⟨.fin XY.1, .fin XY.2, .fin z0, .fin 1⟩ with
    | none => .thrown
    | some u =>
      let y2 := if topLeft then v.height - u.y else u.y
      if xyz.length = 2 then .arr [.fin u.x, .fin y2] else .arr [.fin u.x, .fin y2, .fin 0]
  | _, _, _ => .thrown

/-- `Viewport.unproject(xyz, {topLeft})`.  Destructures `[x, y, targetZ = 0]` (no
finiteness check), flips y for `topLeft`, unprojects the two ray endpoints at pixel depth
0 and 1, returns `null` if either transform fails, solves `t` for the target depth
(`t = 0` when `z0 === z1`), lerps the endpoints and flat-unprojects the result. -/
def Viewport.unproject (v : Viewport) (xyz : List JSNum) (topLeft : Bool) : JSResult :=
  let x := xyz.getD 0 .nan
  let y := xyz.getD 1 .nan
  let targetZ := xyz.getD 2 (.fin 0)
  let y2 := if topLeft then .fin v.height - y else y
  match transformVector v.pixelUnprojectionMatrix ⟨x, y2, .fin 0, .fin 1⟩,
        transformVector v.pixelUnprojectionMatrix ⟨x, y2, .fin 1, .fin 1⟩ with
  | some coord0, some coord1 =>
    let z0 := coord0.z
    let z1 := coord1.z
    let t : JSNum := if z0 = z1 then .fin 0 else (targetZ - .fin z0) / (.fin z1 - .fin z0)
    let lv := vec2_lerp (.fin coord0.x, .fin coord0.y) (.fin coord1.x, .fin coord1.y) t
    let vu := v.unprojectFlat lv v.scale
    if xyz.length = 2 then .arr [vu.1, vu.2] else .arr [vu.1, vu.2, .fin 0]
  | _, _ => .null

/-- The two world-space ray endpoints `unproject` computes for a pixel `(x, y2)` (after
the top-left flip): the transforms of `[x, y2, 0, 1]` and `[x, y2, 1, 1]` through
`pixelUnprojectionMatrix`, when both succeed. -/
def Viewport.rayEndpoints (v : Viewport) (x y2 : JSNum) : Option (Vec4 × Vec4) :=
  match transformVector v.pixelUnprojectionMatrix ⟨x, y2, .fin 0, .fin 1⟩,
        transformVector v.pixelUnprojectionMatrix ⟨x, y2, .fin 1, .fin 1⟩ with
  | some c0, some c1 => some (c0, c1)
  | _, _ => none

/-- `Viewport.equals(viewport)`.  `none` stands for an argument that is not a `Viewport`
instance (the `instanceof` test).  Matrix comparison is math.gl `equals`, read as exact
equality of the exact-arithmetic model. -/
def Viewport.equals (v : Viewport) (other : Option Viewport) : Bool :=
  match other with
  | none => false
  | some o =>
    decide (o.width = v.width) && decide (o.height = v.height) &&
    decide (o.projectionMatrix = v.projectionMatrix) && decide (o.viewMatrix = v.viewMatrix)

/-
  Concrete instances used by witnesses and counterexamples.
-/

/-- A concrete choice of the external parameters: an arbitrary rational stand-in for each
float/transcendental function (their values are unconstrained in the theorems). -/
def cEnv : ExternalEnv :=
  { pow2 := fun q => 1 + q * q
    pi := 314159 / 100000
    tan := fun _ => 767 / 1000
    getMercatorMeterZoom := fun l => 5 + l
    getMercatorDistanceScales := fun _ _ _ => DEFAULT_DISTANCE_SCALES
    getMercatorWorldPosition := fun _ _ _ _ => ⟨0, 0, 0⟩
    matrix4TransformVector := fun _ v => v }

/-- Options supplying the identity as projection matrix (non-geospatial, 1x1 window). -/
def optsId : ViewportOpts := { projectionMatrix := some createMat4 }

/-- The viewport built from `optsId`; its pixel projection matrix is invertible. -/
def sampleVp : Viewport := (mkViewport cEnv optsId).get (by decide)

/-- A projection matrix chosen so that (with a 2x2 window and identity view matrix) the
pixel projection matrix becomes the coordinate rotation `(x, y, z, w) ↦ (z, x, y, w)` —
invertible, but mapping the input plane `z = 0` onto rays of constant world `z`. -/
def PdegM : Mat4 := ⟨0, -1, 0, 0, 0, 0, 1, 0, 1, 0, 0, 0, -1, 1, 0, 1⟩

/-- Options producing a viewport whose unprojection rays are parallel to the `z = 0`
target plane (`z0 == z1` for every pixel). -/
def optsDeg : ViewportOpts :=
  { width := .fin 2, height := .fin 2, projectionMatrix := some PdegM }

/-- The degenerate-ray viewport built from `optsDeg`. -/
def vDeg : Viewport := (mkViewport cEnv optsDeg).get (by decide)

/-- Options supplying a singular (zero) projection matrix. -/
def optsSing : ViewportOpts :=
  { projectionMatrix := some ⟨0, 0, 0, 0, 0, 0, 0, 0, 0, 0, 0, 0, 0, 0, 0, 0⟩ }

/-- The viewport built from the singular projection matrix: construction succeeds and
`pixelUnprojectionMatrix` is absent. -/
def vSing : Viewport := (mkViewport cEnv optsSing).get (by decide)

/-- The end-to-end example options: width 800, height 600, identity view matrix, no
supplied projection matrix (so it is built from fovy = 75, near = 0.1, far = 1000). -/
def opts9 : ViewportOpts := { width := .fin 800, height := .fin 600 }

/-- The end-to-end example viewport. -/
def v9 : Viewport := (mkViewport cEnv opts9).get (by decide)

/-- Options with width 5 and height 0 (for the width/height resolution witness). -/
def optsWH : ViewportOpts := { width := .fin 5, height := .fin 0, projectionMatrix := some createMat4 }

/-- The viewport built from `optsWH`. -/
def vWH : Viewport := (mkViewport cEnv optsWH).get (by decide)

/-- Options with width 1/2, strictly between 0 and 1. -/
def optsHalf : ViewportOpts := { width := .fin (1 / 2), projectionMatrix := some createMat4 }

/-- The viewport built from `optsHalf`: its width stays 1/2, below the claimed floor 1. -/
def vHalf : Viewport := (mkViewport cEnv optsHalf).get (by decide)

/-- The pixel unprojection matrix of `sampleVp` (present since the pixel matrix is
invertible). -/
def sampleMinv : Mat4 := sampleVp.pixelUnprojectionMatrix.get (by with_unfolding_all decide)

/-
  Helper lemmas.
-/

@[simp] theorem JSNum.fin_add_fin (a b : ℚ) :
    (JSNum.fin a) + (JSNum.fin b) = .fin (a + b) := rfl

@[simp] theorem JSNum.fin_sub_fin (a b : ℚ) :
    (JSNum.fin a) - (JSNum.fin b) = .fin (a - b) := rfl

@[simp] theorem JSNum.fin_mul_fin (a b : ℚ) :
    (JSNum.fin a) * (JSNum.fin b) = .fin (a * b) := rfl

theorem JSNum.fin_div_fin (a b : ℚ) (h : b ≠ 0) :
    (JSNum.fin a) / (JSNum.fin b) = .fin (a / b) := by
  show JSNum.div _ _ = _
  simp [JSNum.div, h]

/-- `transformVector` on an all-finite vector is the exact rational transform,
failing only on a zero `w` component. -/
theorem transformVector_fin (m : Mat4) (a b c d : ℚ) :
    transformVector (some m) ⟨.fin a, .fin b, .fin c, .fin d⟩ =
      (if (mat4vec m ⟨a, b, c, d⟩).w = 0 then none
       else some ⟨(mat4vec m ⟨a, b, c, d⟩).x / (mat4vec m ⟨a, b, c, d⟩).w,
                  (mat4vec m ⟨a, b, c, d⟩).y / (mat4vec m ⟨a, b, c, d⟩).w,
                  (mat4vec m ⟨a, b, c, d⟩).z / (mat4vec m ⟨a, b, c, d⟩).w, 1⟩) := rfl

@[simp] theorem transformVector_none (v : Vec4J) : transformVector none v = none := rfl

/-- Matrix-vector transform through a product is the composed transform. -/
theorem mat4vec_mat4_multiply (a b : Mat4) (v : Vec4) :
    mat4vec (mat4_multiply a b) v = mat4vec a (mat4vec b v) := by
  ext <;> simp [mat4vec, mat4_multiply] <;> ring

@[simp] theorem mat4vec_createMat4 (v : Vec4) : mat4vec createMat4 v = v := by
  ext <;> simp [mat4vec, createMat4]

/-- The transform of `(px, py, s, 1)` is affine in `s`, interpolating between the
transforms at `s = 0` and `s = 1`. -/
theorem mat4vec_affine_z (m : Mat4) (px py s : ℚ) :
    mat4vec m ⟨px, py, s, 1⟩ =
      ⟨(mat4vec m ⟨px, py, 0, 1⟩).x +
         s * ((mat4vec m ⟨px, py, 1, 1⟩).x - (mat4vec m ⟨px, py, 0, 1⟩).x),
       (mat4vec m ⟨px, py, 0, 1⟩).y +
         s * ((mat4vec m ⟨px, py, 1, 1⟩).y - (mat4vec m ⟨px, py, 0, 1⟩).y),
       (mat4vec m ⟨px, py, 0, 1⟩).z +
         s * ((mat4vec m ⟨px, py, 1, 1⟩).z - (mat4vec m ⟨px, py, 0, 1⟩).z),
       (mat4vec m ⟨px, py, 0, 1⟩).w +
         s * ((mat4vec m ⟨px, py, 1, 1⟩).w - (mat4vec m ⟨px, py, 0, 1⟩).w)⟩ := by
  ext <;> simp [mat4vec] <;> ring

/-- Dividing the argument of a matrix-vector transform by a scalar divides the result. -/
theorem mat4vec_div_w (m : Mat4) (q : Vec4) (hw : q.w ≠ 0) :
    mat4vec m ⟨q.x / q.w, q.y / q.w, q.z / q.w, 1⟩ =
      ⟨(mat4vec m q).x / q.w, (mat4vec m q).y / q.w,
       (mat4vec m q).z / q.w, (mat4vec m q).w / q.w⟩ := by
  ext <;> simp only [mat4vec] <;> field_simp

set_option maxHeartbeats 3200000 in
/-- gl-mat4 `invert` is correct: when it returns a matrix, that matrix is a left inverse
of its argument. -/
theorem mat4_invert_mul_self (a binv : Mat4) (h : mat4_invert a = some binv) :
    mat4_multiply binv a = createMat4 := by
  simp only [mat4_invert] at h
  split at h
  · exact absurd h (by simp)
  · rename_i hdet
    injection h with h
    subst h
    ext <;>
      simp only [mat4_multiply, createMat4] <;>
      rw [← mul_div_assoc, ← mul_div_assoc, ← mul_div_assoc, ← mul_div_assoc,
          div_add_div_same, div_add_div_same, div_add_div_same, div_eq_iff hdet] <;>
      ring

/-- Inversion principle for the constructor: a successfully constructed viewport is
`buildViewport` applied to the resolved projection matrix. -/
theorem mkViewport_eq_some (env : ExternalEnv) (opts : ViewportOpts) (v : Viewport)
    (h : mkViewport env opts = some v) :
    ∃ pm, resolveProjectionMatrix env opts = some pm ∧ v = buildViewport env opts pm := by
  simp only [mkViewport, Option.map_eq_some'] at h
  obtain ⟨pm, hpm, hv⟩ := h
  exact ⟨pm, hpm, hv.symm⟩

/-- Constructor invariant: `pixelUnprojectionMatrix` is exactly the gl-mat4 inverse of
`pixelProjectionMatrix`. -/
theorem buildViewport_pixelUnprojection (env : ExternalEnv) (opts : ViewportOpts)
    (pm : Mat4) :
    (buildViewport env opts pm).pixelUnprojectionMatrix =
      mat4_invert (buildViewport env opts pm).pixelProjectionMatrix := rfl

/-- Constructor invariant: the stored scale is `Math.pow(2, zoom)` of the stored zoom. -/
theorem buildViewport_scale (env : ExternalEnv) (opts : ViewportOpts) (pm : Mat4) :
    (buildViewport env opts pm).scale = env.pow2 (buildViewport env opts pm).zoom := rfl

/-- Constructor invariant: the stored zoom is the resolved zoom. -/
theorem buildViewport_zoom (env : ExternalEnv) (opts : ViewportOpts) (pm : Mat4) :
    (buildViewport env opts pm).zoom = resolvedZoom env opts := rfl

/-- Constructor invariant: the geospatial flag is the finiteness test on the anchor. -/
theorem buildViewport_isGeospatial (env : ExternalEnv) (opts : ViewportOpts) (pm : Mat4) :
    (buildViewport env opts pm).isGeospatial =
      (opts.latitude.isFinite && opts.longitude.isFinite) := rfl

/-- Constructor invariant: stored width and height come from the `|| 1` resolution. -/
theorem buildViewport_width_height (env : ExternalEnv) (opts : ViewportOpts) (pm : Mat4) :
    (buildViewport env opts pm).width = jsFalsyOr1 opts.width ∧
    (buildViewport env opts pm).height = jsFalsyOr1 opts.height := ⟨rfl, rfl⟩

/-- Unfolding of `rayEndpoints` success into the two transform equations. -/
theorem rayEndpoints_eq_some (v : Viewport) (x y2 : JSNum) (c0 c1 : Vec4)
    (h : v.rayEndpoints x y2 = some (c0, c1)) :
    transformVector v.pixelUnprojectionMatrix ⟨x, y2, .fin 0, .fin 1⟩ = some c0 ∧
    transformVector v.pixelUnprojectionMatrix ⟨x, y2, .fin 1, .fin 1⟩ = some c1 := by
  unfold Viewport.rayEndpoints at h
  rcases h0 : transformVector v.pixelUnprojectionMatrix ⟨x, y2, .fin 0, .fin 1⟩ with _ | d0 <;>
    rcases h1 : transformVector v.pixelUnprojectionMatrix ⟨x, y2, .fin 1, .fin 1⟩ with _ | d1 <;>
    rw [h0, h1] at h <;> simp_all

/-- The core depth-interpolation identity: if the homogeneous endpoint coordinates
`(A·, Aw)` and `(C·, Cw)` of the unprojection ray interpolate (at parameter `rz`) to the
projective image `(x/w, 0/w, 1/w)` of the original point, then solving the interpolation
parameter for target depth 0 and lerping recovers the original coordinate `x` exactly. -/
theorem lerp_solves_comp (Ax Az Aw Cx Cz Cw x w rz : ℚ)
    (hw : w ≠ 0) (hAw : Aw ≠ 0) (hCw : Cw ≠ 0)
    (hx : Ax + rz * (Cx - Ax) = x / w)
    (hz : Az + rz * (Cz - Az) = 0)
    (h1 : Aw + rz * (Cw - Aw) = 1 / w)
    (hne : Az / Aw ≠ Cz / Cw) :
    Ax / Aw + (0 - Az / Aw) / (Cz / Cw - Az / Aw) * (Cx / Cw - Ax / Aw) = x := by
  have hD : Cz * Aw - Az * Cw ≠ 0 := by
    intro h0
    apply hne
    rw [div_eq_div_iff hAw hCw]
    linarith
  have hx' : (Ax + rz * (Cx - Ax)) * w = x := by rw [hx]; field_simp
  have h1' : (Aw + rz * (Cw - Aw)) * w = 1 := by rw [h1]; field_simp
  have hK : Ax * Cz - Az * Cx = (Cz * Aw - Az * Cw) * ((Ax + rz * (Cx - Ax)) * w) := by
    linear_combination (-(Ax * Cz - Az * Cx)) * h1' + (w * (Cw * Ax - Aw * Cx)) * hz
  have hfrac : Ax / Aw + (0 - Az / Aw) / (Cz / Cw - Az / Aw) * (Cx / Cw - Ax / Aw)
      = (Ax * Cz - Az * Cx) / (Cz * Aw - Az * Cw) := by
    have e1 : Cz / Cw - Az / Aw = (Cz * Aw - Az * Cw) / (Cw * Aw) := by
      rw [div_sub_div _ _ hCw hAw, mul_comm Cw Az]
    have e2 : Cx / Cw - Ax / Aw = (Cx * Aw - Ax * Cw) / (Cw * Aw) := by
      rw [div_sub_div _ _ hCw hAw, mul_comm Cw Ax]
    rw [e1, e2, zero_sub, neg_div, div_div_eq_mul_div]
    field_simp
    ring
  rw [hfrac, hK, mul_comm (Cz * Aw - Az * Cw), mul_div_assoc, div_self hD, mul_one, hx']

/-
  Claim theorems.
-/

/-- C2: constructing a Viewport whose pixelProjectionMatrix is not invertible (e.g. from a
supplied singular projection matrix) does not throw — construction always succeeds when a
projection matrix is supplied — and whenever the pixelUnprojectionMatrix is absent, every
subsequent unproject call returns null rather than throwing. -/
theorem C2_singular_matrix_safety (env : ExternalEnv) (opts : ViewportOpts) :
    (∀ P, opts.projectionMatrix = some P → (mkViewport env opts).isSome = true) ∧
    (∀ v, mkViewport env opts = some v → v.pixelUnprojectionMatrix = none →
      ∀ (xyz : List JSNum) (b : Bool), v.unproject xyz b = .null) := by
  constructor
  · intro P hP
    simp [mkViewport, resolveProjectionMatrix, hP]
  · intro v _ hnone xyz b
    simp [Viewport.unproject, hnone]

/-- C2 witness: the zero projection matrix yields a successfully constructed viewport with
an absent unprojection matrix, whose unproject returns null. -/
theorem C2_singular_matrix_safety_witness :
    (mkViewport cEnv optsSing).isSome = true ∧
    vSing.pixelUnprojectionMatrix = none ∧
    Viewport.unproject vSing [.fin 3, .fin 4] true = .null := by
  have hmk : mkViewport cEnv optsSing = some vSing := (Option.some_get _).symm
  refine ⟨(C2_singular_matrix_safety cEnv optsSing).1 _ rfl, by with_unfolding_all decide,
    (C2_singular_matrix_safety cEnv optsSing).2 vSing hmk (by with_unfolding_all decide)
      [.fin 3, .fin 4] true⟩

/-- C3: for every constructed Viewport in which pixelUnprojectionMatrix exists, the
product pixelUnprojectionMatrix × pixelProjectionMatrix is exactly the 4x4 identity. -/
theorem C3_matrix_consistency (env : ExternalEnv) (opts : ViewportOpts) (v : Viewport)
    (minv : Mat4) (hv : mkViewport env opts = some v)
    (hm : v.pixelUnprojectionMatrix = some minv) :
    mat4_multiply minv v.pixelProjectionMatrix = createMat4 := by
  obtain ⟨pm, hpm, hbuild⟩ := mkViewport_eq_some env opts v hv
  have hrel : v.pixelUnprojectionMatrix = mat4_invert v.pixelProjectionMatrix := by
    rw [hbuild]; exact buildViewport_pixelUnprojection env opts pm
  exact mat4_invert_mul_self _ _ (hm ▸ hrel).symm

/-- C3 witness: the sample viewport's unprojection matrix is a left inverse of its pixel
projection matrix. -/
theorem C3_matrix_consistency_witness :
    mat4_multiply sampleMinv sampleVp.pixelProjectionMatrix = createMat4 := by
  have hmk : mkViewport cEnv optsId = some sampleVp := (Option.some_get _).symm
  have hm : sampleVp.pixelUnprojectionMatrix = some sampleMinv := (Option.some_get _).symm
  exact C3_matrix_consistency cEnv optsId sampleVp sampleMinv hmk hm

/-- C4: for every constructed Viewport, scale = Math.pow(2, zoom) where zoom is the
resolved zoom: the input zoom when finite, otherwise the latitude-derived mercator meter
zoom in geospatial mode, otherwise 0; the geospatial flag is exactly the finiteness test
of the anchor.  (The viewport is an immutable value, so this holds for its lifetime.) -/
theorem C4_scale_invariant (env : ExternalEnv) (opts : ViewportOpts) (v : Viewport)
    (hv : mkViewport env opts = some v) :
    v.scale = env.pow2 v.zoom ∧
    (∀ z, opts.zoom = .fin z → v.zoom = z) ∧
    (opts.zoom = .nan → ∀ l, opts.latitude = .fin l → v.isGeospatial = true →
      v.zoom = env.getMercatorMeterZoom l) ∧
    (opts.zoom = .nan → v.isGeospatial = false → v.zoom = 0) ∧
    v.isGeospatial = (opts.latitude.isFinite && opts.longitude.isFinite) := by
  obtain ⟨pm, hpm, hbuild⟩ := mkViewport_eq_some env opts v hv
  subst hbuild
  refine ⟨rfl, ?_, ?_, ?_, rfl⟩
  · intro z hzz
    rw [buildViewport_zoom]
    simp [resolvedZoom, hzz]
  · intro hzz l hlat hgeo
    rw [buildViewport_zoom]
    rw [buildViewport_isGeospatial] at hgeo
    simp only [hlat, JSNum.isFinite, Bool.true_and] at hgeo
    simp [resolvedZoom, hzz, hlat, hgeo, JSNum.isFinite]
  · intro hzz hgeo
    rw [buildViewport_zoom]
    rw [buildViewport_isGeospatial] at hgeo
    simp [resolvedZoom, hzz, hgeo, DEFAULT_ZOOM]

/-- C4 witness: on the sample (non-geospatial, defaulted-zoom) viewport the invariant
evaluates: zoom resolves to 0 and scale is the pow2 stand-in at 0. -/
theorem C4_scale_invariant_witness :
    sampleVp.scale = cEnv.pow2 sampleVp.zoom ∧ sampleVp.zoom = 0 := by
  have hmk : mkViewport cEnv optsId = some sampleVp := (Option.some_get _).symm
  have h := C4_scale_invariant cEnv optsId sampleVp hmk
  exact ⟨h.1, h.2.2.2.1 rfl (by with_unfolding_all decide)⟩

/-- C8: equals returns true exactly when the compared value is a Viewport with identical
width and height and equal view and projection matrices; distance scales are not
compared, so changing only the distance scales preserves equality. -/
theorem C8_equals_characterization :
    (∀ (v : Viewport) (other : Option Viewport),
      v.equals other = true ↔
        ∃ o, other = some o ∧ o.width = v.width ∧ o.height = v.height ∧
          o.projectionMatrix = v.projectionMatrix ∧ o.viewMatrix = v.viewMatrix) ∧
    (∀ (v : Viewport) (ds : DistanceScales),
      v.equals (some { v with distanceScales := ds }) = true) := by
  constructor
  · intro v other
    cases other <;> simp [Viewport.equals, and_assoc]
  · intro v ds
    simp [Viewport.equals]

/-- C10: on every Viewport of this (base) class, the non-linear projection hooks are the
identity pair: projectFlat and unprojectFlat return their input unchanged for every input
and scale argument, regardless of the geospatial mode flag. -/
theorem C10_flat_hooks_identity :
    ∀ (v : Viewport) (α : Type) (p : α) (s : ℚ),
      v.projectFlat p s = p ∧ v.unprojectFlat p s = p :=
  fun _ _ _ _ => ⟨rfl, rfl⟩

/-- C1 (amended): round trip through project and unproject, with the same topLeft flag on
both calls, recovers a finite 2-component point exactly — provided project succeeded (its
homogeneous w was nonzero), both unprojection ray endpoint transforms succeeded, and the
unprojection ray is not parallel to the target plane (z0 ≠ z1).  In the degenerate
z0 = z1 case the round trip can return a different point (see the counterexample). -/
theorem C1_round_trip
    (env : ExternalEnv) (opts : ViewportOpts) (v : Viewport)
    (hv : mkViewport env opts = some v)
    (x y rx ry : ℚ) (b : Bool) (c0 c1 : Vec4)
    (hp : v.project [.fin x, .fin y] b = .arr [.fin rx, .fin ry])
    (hray : v.rayEndpoints (.fin rx) (.fin (if b then v.height - ry else ry)) = some (c0, c1))
    (hz : c0.z ≠ c1.z) :
    v.unproject [.fin rx, .fin ry] b = .arr [.fin x, .fin y] := by
  obtain ⟨pm, hpm, hbuild⟩ := mkViewport_eq_some env opts v hv
  have hrel : v.pixelUnprojectionMatrix = mat4_invert v.pixelProjectionMatrix := by
    rw [hbuild]; exact buildViewport_pixelUnprojection env opts pm
  obtain ⟨htv0, htv1⟩ := rayEndpoints_eq_some _ _ _ _ _ hray
  rcases hM : v.pixelUnprojectionMatrix with _ | Minv
  · rw [hM] at htv0; exact absurd htv0 (by simp)
  have hMul : mat4_multiply Minv v.pixelProjectionMatrix = createMat4 :=
    mat4_invert_mul_self _ _ (hM ▸ hrel).symm
  set q := mat4vec v.pixelProjectionMatrix ⟨x, y, 0, 1⟩ with hqdef
  -- unpack the projection hypothesis
  simp only [Viewport.project, List.getD_cons_zero, List.getD_cons_succ, List.getD_nil,
    Viewport.projectFlat, Viewport._projectFlat, transformVector_fin, List.length_cons,
    List.length_nil] at hp
  by_cases hqw : q.w = 0
  · simp [← hqdef, hqw] at hp
  rw [← hqdef] at hp
  simp only [hqw, if_false, ite_false, reduceIte, JSResult.arr.injEq, List.cons.injEq,
    JSNum.fin.injEq, and_true] at hp
  obtain ⟨hrx, hry⟩ := hp
  subst hrx
  -- the re-flipped y pixel coordinate is the projected y
  have hy2 : (if b then v.height - ry else ry) = q.y / q.w := by
    cases b
    all_goals simp_all
    all_goals linarith
  rw [hy2] at htv0 htv1
  have hgy2 : (if b then JSNum.fin v.height - JSNum.fin ry else JSNum.fin ry)
      = JSNum.fin (q.y / q.w) := by
    cases b <;> simp_all
  -- unpack the two ray endpoint transforms
  rw [hM, transformVector_fin] at htv0 htv1
  set A := mat4vec Minv ⟨q.x / q.w, q.y / q.w, 0, 1⟩ with hAdef
  set C := mat4vec Minv ⟨q.x / q.w, q.y / q.w, 1, 1⟩ with hCdef
  by_cases hAw : A.w = 0
  · simp [hAw] at htv0
  by_cases hCw : C.w = 0
  · simp [hCw] at htv1
  simp only [hAw, hCw, if_false, ite_false, reduceIte, Option.some.injEq] at htv0 htv1
  -- the homogeneous image of the original point lies on the ray at parameter q.z / q.w
  have hqmul : mat4vec Minv q = ⟨x, y, 0, 1⟩ := by
    rw [hqdef, ← mat4vec_mat4_multiply, hMul, mat4vec_createMat4]
  have hkey : mat4vec Minv ⟨q.x / q.w, q.y / q.w, q.z / q.w, 1⟩
      = ⟨x / q.w, y / q.w, 0 / q.w, 1 / q.w⟩ := by
    rw [mat4vec_div_w Minv q hqw, hqmul]
  have haff := mat4vec_affine_z Minv (q.x / q.w) (q.y / q.w) (q.z / q.w)
  rw [hkey, ← hAdef, ← hCdef] at haff
  rw [Vec4.mk.injEq] at haff
  obtain ⟨hax, hay, haz, haww⟩ := haff
  rw [zero_div] at haz
  -- move the inequality of ray depths to the homogeneous coordinates
  rw [← htv0, ← htv1] at hz
  simp only at hz
  have hdz : C.z / C.w - A.z / A.w ≠ 0 := sub_ne_zero.mpr (Ne.symm hz)
  -- unfold unproject on the computed pixel and reduce with the endpoint equations
  simp only [Viewport.unproject, List.getD_cons_zero, List.getD_cons_succ, List.getD_nil,
    List.length_cons, List.length_nil]
  rw [hgy2, hM]
  rw [transformVector_fin, transformVector_fin]
  rw [← hAdef, ← hCdef]
  simp only [hAw, hCw, if_false, ite_false, reduceIte]
  simp only [if_neg hz, JSNum.fin_sub_fin, JSNum.fin_div_fin _ _ hdz, vec2_lerp,
    Viewport.unprojectFlat, Viewport._unprojectFlat, JSNum.fin_mul_fin, JSNum.fin_add_fin,
    JSResult.arr.injEq, List.cons.injEq, JSNum.fin.injEq, and_true]
  constructor
  · have := lerp_solves_comp A.x A.z A.w C.x C.z C.w x q.w (q.z / q.w)
      hqw hAw hCw hax.symm haz.symm haww.symm hz
    linarith [this]
  · have := lerp_solves_comp A.y A.z A.w C.y C.z C.w y q.w (q.z / q.w)
      hqw hAw hCw hay.symm haz.symm haww.symm hz
    linarith [this]

/-- C1 witness: on the sample viewport, projecting (1, 2) gives pixel (1, -1/2), whose
ray endpoints exist with distinct depths, and unprojecting recovers (1, 2) exactly. -/
theorem C1_round_trip_witness :
    Viewport.unproject sampleVp [.fin 1, .fin (-(1 / 2) : ℚ)] false = .arr [.fin 1, .fin 2] := by
  have hmk : mkViewport cEnv optsId = some sampleVp := (Option.some_get _).symm
  exact C1_round_trip cEnv optsId sampleVp hmk 1 2 1 (-(1 / 2)) false
    ⟨1, 2, 0, 1⟩ ⟨1, 2, 1, 1⟩ (by with_unfolding_all decide)
    (by with_unfolding_all decide) (by with_unfolding_all decide)

/-- C1 counterexample: a constructed viewport whose pixelUnprojectionMatrix exists, and a
finite 2-component point (1, 2), for which unproject(project(p)) with the same topLeft
flag returns (1, 0) ≠ (1, 2): the claim as stated (round trip for every such viewport
and point) is false — the unprojection ray here is parallel to the z = 0 plane. -/
theorem C1_round_trip_counterexample :
    mkViewport cEnv optsDeg = some vDeg ∧
    vDeg.pixelUnprojectionMatrix.isSome = true ∧
    Viewport.project vDeg [.fin 1, .fin 2] false = .arr [.fin 0, .fin 1] ∧
    Viewport.unproject vDeg [.fin 0, .fin 1] false = .arr [.fin 1, .fin 0] ∧
    JSResult.arr [.fin 1, .fin 0] ≠ .arr [.fin 1, .fin 2] := by
  refine ⟨(Option.some_get _).symm, by with_unfolding_all decide,
    by with_unfolding_all decide, by with_unfolding_all decide, by decide⟩

/-- C5 (amended): project fails immediately whenever any of its three resolved input
components (z defaulting to 0 when absent) is not a finite number; unproject performs no
such validation — it never throws, returning null or a coordinate array instead. -/
theorem C5_input_validation :
    (∀ (v : Viewport) (xyz : List JSNum) (b : Bool),
      ((xyz.getD 0 .nan).isFinite = false ∨ (xyz.getD 1 .nan).isFinite = false ∨
       (xyz.getD 2 (.fin 0)).isFinite = false) → v.project xyz b = .thrown) ∧
    (∀ (v : Viewport) (xyz : List JSNum) (b : Bool), v.unproject xyz b ≠ .thrown) := by
  constructor
  · intro v xyz b hbad
    unfold Viewport.project
    rcases h0 : xyz.getD 0 .nan with _ | a0 <;>
      rcases h1 : xyz.getD 1 .nan with _ | a1 <;>
        rcases h2 : xyz.getD 2 (.fin 0) with _ | a2 <;>
          simp_all [JSNum.isFinite]
  · intro v xyz b
    simp only [Viewport.unproject]
    split
    · split <;> simp
    · simp

/-- C5 witness: a NaN x component makes project throw, while unproject on the same input
does not throw. -/
theorem C5_input_validation_witness :
    Viewport.project sampleVp [.nan, .fin 0] false = .thrown ∧
    Viewport.unproject sampleVp [.nan, .fin 0] false ≠ .thrown :=
  ⟨C5_input_validation.1 sampleVp [.nan, .fin 0] false (Or.inl (by decide)),
   C5_input_validation.2 sampleVp [.nan, .fin 0] false⟩

/-- C5 counterexample: unproject with a non-finite x component does not fail — it runs to
completion and returns null (a value, not an exception), so the claim that both project
and unproject fail on non-finite input is false. -/
theorem C5_counterexample :
    Viewport.unproject sampleVp [.nan, .fin 0] false = .null ∧
    JSResult.null ≠ JSResult.thrown := by
  exact ⟨by with_unfolding_all decide, by decide⟩

/-- C6 (amended): a supplied width or height equal to 0 is replaced by 1; every other
supplied finite value — including values strictly between 0 and 1 and negative values —
is kept unchanged, so there is no clamping to a minimum of 1 (`width || 1` is a
falsy-value fallback, not a floor). -/
theorem C6_width_height_resolution (env : ExternalEnv) (opts : ViewportOpts) (v : Viewport)
    (hv : mkViewport env opts = some v) :
    (∀ q, opts.width = .fin q → q ≠ 0 → v.width = q) ∧
    (opts.width = .fin 0 → v.width = 1) ∧
    (∀ q, opts.height = .fin q → q ≠ 0 → v.height = q) ∧
    (opts.height = .fin 0 → v.height = 1) := by
  obtain ⟨pm, hpm, hbuild⟩ := mkViewport_eq_some env opts v hv
  subst hbuild
  have hw := (buildViewport_width_height env opts pm).1
  have hh := (buildViewport_width_height env opts pm).2
  refine ⟨?_, ?_, ?_, ?_⟩
  · intro qq hq hne
    rw [hw, hq]
    simp [jsFalsyOr1, hne]
  · intro h
    rw [hw, h]
    simp [jsFalsyOr1]
  · intro qq hq hne
    rw [hh, hq]
    simp [jsFalsyOr1, hne]
  · intro h
    rw [hh, h]
    simp [jsFalsyOr1]

/-- C6 witness: width 5 is kept, height 0 is replaced by 1. -/
theorem C6_width_height_resolution_witness :
    vWH.width = 5 ∧ vWH.height = 1 := by
  have hmk : mkViewport cEnv optsWH = some vWH := (Option.some_get _).symm
  have h := C6_width_height_resolution cEnv optsWH vWH hmk
  exact ⟨h.1 5 rfl (by norm_num), h.2.2.2 rfl⟩

/-- C6 counterexample: a supplied width of 1/2 is below 1 and is not clamped up — the
constructed width is 1/2, refuting the claimed floor of 1. -/
theorem C6_counterexample :
    mkViewport cEnv optsHalf = some vHalf ∧ vHalf.width = 1 / 2 ∧ ¬(1 ≤ vHalf.width) := by
  refine ⟨(Option.some_get _).symm, by with_unfolding_all decide, by with_unfolding_all decide⟩

/-- C7: whenever unproject's two ray endpoints exist and have equal z components, the
interpolation parameter is 0 and the call returns the coord0 endpoint — a finite
coordinate array (with z fixed at 0 for 3-component input, whatever the target z,
including a non-finite one), never an error. -/
theorem C7_degenerate_ray (v : Viewport) (x y : ℚ) (tz : JSNum) (b : Bool) (c0 c1 : Vec4)
    (hray : v.rayEndpoints (.fin x) (.fin (if b then v.height - y else y)) = some (c0, c1))
    (hzz : c0.z = c1.z) :
    v.unproject [.fin x, .fin y, tz] b = .arr [.fin c0.x, .fin c0.y, .fin 0] ∧
    v.unproject [.fin x, .fin y] b = .arr [.fin c0.x, .fin c0.y] := by
  obtain ⟨htv0, htv1⟩ := rayEndpoints_eq_some _ _ _ _ _ hray
  have hgy2 : (if b then JSNum.fin v.height - JSNum.fin y else JSNum.fin y)
      = JSNum.fin (if b then v.height - y else y) := by
    cases b <;> simp
  constructor <;>
  · simp only [Viewport.unproject, List.getD_cons_zero, List.getD_cons_succ, List.getD_nil,
      List.length_cons, List.length_nil]
    rw [hgy2, htv0, htv1]
    simp [hzz, vec2_lerp, Viewport.unprojectFlat, Viewport._unprojectFlat]

/-- C7 witness: on the degenerate-ray viewport, both endpoints of pixel (5, 7) have
z = 5; unproject returns the coord0 endpoint (7, 0) — even for a NaN target z. -/
theorem C7_degenerate_ray_witness :
    Viewport.unproject vDeg [.fin 5, .fin 7, .nan] false = .arr [.fin 7, .fin 0, .fin 0] ∧
    Viewport.unproject vDeg [.fin 5, .fin 7] false = .arr [.fin 7, .fin 0] := by
  have h := C7_degenerate_ray vDeg 5 7 .nan false ⟨7, 0, 5, 1⟩ ⟨7, 1, 5, 1⟩
    (by with_unfolding_all decide) (by decide)
  exact ⟨h.1, h.2⟩

/-- C9 (amended): for the non-geospatial 800x600 viewport with identity view matrix and a
perspective projection built from fovy 75, near 0.1, far 1000, projecting the on-axis
point (0, 0, -1) in front of the camera yields exactly the image center (400, 300, 0),
and unprojecting (400, 300) at the default target z 0 yields exactly (0, 0).  The
original input (0, 0, 0) sits at the camera eye, where the homogeneous w is 0, so
projecting it fails (see the counterexample). -/
theorem C9_end_to_end :
    Viewport.project v9 [.fin 0, .fin 0, .fin (-1)] false = .arr [.fin 400, .fin 300, .fin 0] ∧
    Viewport.unproject v9 [.fin 400, .fin 300] false = .arr [.fin 0, .fin 0] ∧
    Viewport.unproject v9 [.fin 400, .fin 300, .fin 0] false = .arr [.fin 0, .fin 0, .fin 0] := by
  refine ⟨by with_unfolding_all decide, by with_unfolding_all decide,
    by with_unfolding_all decide⟩

/-- C9 counterexample: on that same viewport, project([0,0,0]) does not yield the image
center — the point is at the camera eye, its homogeneous w is 0, the transform is not
normalizable, and the call throws. -/
theorem C9_counterexample :
    mkViewport cEnv opts9 = some v9 ∧
    Viewport.project v9 [.fin 0, .fin 0, .fin 0] false = .thrown := by
  exact ⟨(Option.some_get _).symm, by with_unfolding_all decide⟩
